import Mathlib

/- Verification development for the ESP32miniFDR firmware (src/barometer.cpp and
src/fdr.cpp).  The two modules are shallowly embedded: module-level mutable
state becomes explicit state records, hardware and filesystem interactions
(I2C probes, SPIFFS mount/open/write results, the wall clock) become explicit
oracle arguments, C floats become rationals, and NAN-sentinel values become
`Option`.  Time values (`millis()` results, uint32 in the source) are modelled
as `Nat` under the monotone-clock assumption; none of the verified properties
involve 32-bit wraparound. -/

namespace ESP32miniFDR

/-! ## Barometer module (src/barometer.cpp)

The static runtime variables `bme_ok`, `bmp_used`, `bad_read_count`,
`lastTemp`, `lastPressure`, `pressure_ema` become the fields of `BaroState`.
`lastTemp`, `lastPressure` and `pressure_ema` are initialised to NAN in the
source; NAN is modelled as `none`. -/

structure BaroState where
  bme_ok : Bool
  bmp_used : Bool
  bad_read_count : Nat
  lastTemp : Option ℚ
  lastPressure : Option ℚ
  pressure_ema : Option ℚ
deriving DecidableEq

/-- `PRESSURE_EMA_ALPHA = 0.25f` from barometer.cpp. -/
def pressureEmaAlpha : ℚ := 1/4

/-- `BAD_READS_MAX = 3` from barometer.cpp. -/
def badReadsMax : Nat := 3

/-- `validateSensorReadings`: temperature in `[-40, 85]` and pressure in
`[300, 1100]` (barometer.cpp lines 136-139). -/
def validateSensorReadings (temperature pressure : ℚ) : Bool :=
  decide ((-40 ≤ temperature ∧ temperature ≤ 85) ∧ (300 ≤ pressure ∧ pressure ≤ 1100))

/-- `initializePressureEMA` (barometer.cpp lines 146-150): sets the filter to
the raw value only when the filter is still NAN. -/
def initializePressureEMA (ema : Option ℚ) (initial_pressure : ℚ) : Option ℚ :=
  match ema with
  | none => some initial_pressure
  | some v => some v

/-- `updatePressureEMA` (barometer.cpp lines 157-160):
`ema := alpha * raw + (1 - alpha) * ema` (NAN propagates, hence `Option.map`). -/
def updatePressureEMA (ema : Option ℚ) (raw_pressure : ℚ) : Option ℚ :=
  ema.map fun v => pressureEmaAlpha * raw_pressure + (1 - pressureEmaAlpha) * v

/-- The `bme_ok` branch of `barometer_process` (barometer.cpp lines 314-344):
read a sample (here passed in as the oracle pair `temperature`,
`raw_pressure`), initialise then update the EMA, publish the latest readings,
then run the bad-read bookkeeping: an in-range reading clears the counter, an
out-of-range reading increments it, and reaching `BAD_READS_MAX` forces
`bme_ok := false` (re-scan) and clears the counter. -/
def barometer_processActive (s : BaroState) (temperature raw_pressure : ℚ) : BaroState :=
  let ema := updatePressureEMA (initializePressureEMA s.pressure_ema raw_pressure) raw_pressure
  if validateSensorReadings temperature raw_pressure then
    { s with pressure_ema := ema, lastTemp := some temperature, lastPressure := ema,
             bad_read_count := 0 }
  else if badReadsMax ≤ s.bad_read_count + 1 then
    { s with pressure_ema := ema, lastTemp := some temperature, lastPressure := ema,
             bme_ok := false, bmp_used := false, bad_read_count := 0 }
  else
    { s with pressure_ema := ema, lastTemp := some temperature, lastPressure := ema,
             bad_read_count := s.bad_read_count + 1 }

/-- One probe attempt of the structured fallback inside `scanAndTryInit`. -/
inductive ProbeStep where
  | bmePrimary
  | chipIdRead
  | bmePrimaryRetry
  | bmeSecondary
  | bmpPrimary
deriving DecidableEq

/-- Effect of a successful `attemptBME280Init` (barometer.cpp lines 249-260)
on the module state. -/
def attemptBMEInitOk (s : BaroState) : BaroState :=
  { s with bme_ok := true, bmp_used := false }

/-- Effect of a successful `attemptBMP280Init` (barometer.cpp lines 268-279)
on the module state. -/
def attemptBMPInitOk (s : BaroState) : BaroState :=
  { s with bme_ok := true, bmp_used := true }

/-- `BME280_CHIP_ID = 0x58` from barometer.cpp. -/
def bme280ChipId : Nat := 88

/-- The body of the `i == BME280_ADDRESS_PRIMARY && !bme_ok` slot inside
`scanAndTryInit` (barometer.cpp lines 211-227).  Oracles: `b1`, `bRetry`,
`bSec` are the results of the three `attemptBME280Init` calls (primary,
primary again, secondary address), `chipRead` is the identity-register read
(`none` when `readChipID` fails; the local `chipid` then keeps its initial 0),
and `bBmp` the result of `attemptBMP280Init` at the primary address.  The
returned list records which probe attempts were actually executed, in order;
`break` on the first success ends the sequence. -/
def primarySlotScan (s : BaroState) (b1 : Bool) (chipRead : Option Nat)
    (bRetry bSec bBmp : Bool) : BaroState × List ProbeStep :=
  if b1 then (attemptBMEInitOk s, [.bmePrimary])
  else
    let chipid := chipRead.getD 0
    if bRetry then (attemptBMEInitOk s, [.bmePrimary, .chipIdRead, .bmePrimaryRetry])
    else if bSec then
      (attemptBMEInitOk s, [.bmePrimary, .chipIdRead, .bmePrimaryRetry, .bmeSecondary])
    else if chipid = bme280ChipId then
      if bBmp then
        (attemptBMPInitOk s,
         [.bmePrimary, .chipIdRead, .bmePrimaryRetry, .bmeSecondary, .bmpPrimary])
      else
        (s, [.bmePrimary, .chipIdRead, .bmePrimaryRetry, .bmeSecondary, .bmpPrimary])
    else (s, [.bmePrimary, .chipIdRead, .bmePrimaryRetry, .bmeSecondary])

/-- Environment oracles for one `scanAndTryInit` call: whether the primary
address ACKs presence on the bus, and the probe outcomes of the primary slot.
Addresses other than the primary one are only counted and logged by the scan
loop (diagnostic only), so they are not modelled. -/
structure ScanEnv where
  primaryPresent : Bool
  b1 : Bool
  chipRead : Option Nat
  bRetry : Bool
  bSec : Bool
  bBmp : Bool

/-- `scanAndTryInit` (barometer.cpp lines 196-241), restricted to its
behavioural effect: the primary-address slot body runs when the primary
address responds and acquisition is not active. -/
def scanAndTryInit (s : BaroState) (env : ScanEnv) : BaroState :=
  if env.primaryPresent ∧ s.bme_ok = false then
    (primarySlotScan s env.b1 env.chipRead env.bRetry env.bSec env.bBmp).1
  else s

/-- `barometer_process` (barometer.cpp lines 308-345): scan when no device is
active, otherwise read and process one sample. -/
def barometer_process (s : BaroState) (env : ScanEnv) (temperature raw_pressure : ℚ) :
    BaroState :=
  if s.bme_ok = false then scanAndTryInit s env
  else barometer_processActive s temperature raw_pressure

/-- Module state right after a successful `barometer_init` probe
(`bme_ok = true`, EMA still uninitialised). -/
def baroActiveInit : BaroState :=
  { bme_ok := true, bmp_used := false, bad_read_count := 0,
    lastTemp := none, lastPressure := none, pressure_ema := none }

/-- The smoothed-pressure values published after each of a sequence of raw
pressure readings processed by consecutive active-branch cycles (a fixed
in-range temperature is used; the temperature does not influence the EMA). -/
def baroEmaRun (s : BaroState) : List ℚ → List (Option ℚ)
  | [] => []
  | r :: rs =>
      (barometer_processActive s 20 r).pressure_ema ::
        baroEmaRun (barometer_processActive s 20 r) rs

/-- Smoothed-pressure trace from a freshly initialised sensor. -/
def emaTrace (raws : List ℚ) : List (Option ℚ) :=
  baroEmaRun baroActiveInit raws

/-- Modelled from the spec's words (section 8): the smoothing filter satisfies
`smoothed[0] = raw[0]` and `smoothed[i] = 0.25 * raw[i] + 0.75 * smoothed[i-1]`
for `i > 0`.  Continuation after a first output `prev`. -/
def specSmoothedFrom (prev : ℚ) : List ℚ → List ℚ
  | [] => []
  | r :: rs => ((1/4) * r + (3/4) * prev) :: specSmoothedFrom ((1/4) * r + (3/4) * prev) rs

/-- Modelled from the spec's words (section 8): the full smoothed sequence,
with `smoothed[0] = raw[0]`. -/
def specSmoothed : List ℚ → List ℚ
  | [] => []
  | r :: rs => r :: specSmoothedFrom r rs

/-- Modelled from the spec's words (section 4.1): the bus-scan fallback
candidates in their prescribed order; each entry carries whether that attempt
succeeds.  The identity-register read never stops the sequence (diagnostics
only, recorded as never-succeeding here), and the fallback-driver attempt is
listed only when the identity register matched the expected ID. -/
def probeCandidates (b1 bRetry bSec bBmp idMatch : Bool) : List (ProbeStep × Bool) :=
  [(.bmePrimary, b1), (.chipIdRead, false), (.bmePrimaryRetry, bRetry),
   (.bmeSecondary, bSec)] ++ (if idMatch then [(.bmpPrimary, bBmp)] else [])

/-- Modelled from the spec's words: run the candidate attempts in order and
stop at the first success. -/
def attemptsUntilSuccess : List (ProbeStep × Bool) → List ProbeStep
  | [] => []
  | (a, ok) :: rest => if ok then [a] else a :: attemptsUntilSuccess rest

/-! ## FDR module (src/fdr.cpp)

The static module variables become the fields of `FdrState`.  The SPIFFS
file `/fdr.csv` is modelled as `fsFile : Option (List Char)` (`none` when the
file does not exist), the open handle `fdr_file` as a `Bool`, and the RAM
write buffer as a `List Char`.  Each `SPIFFS.begin` / `SPIFFS.open` /
`File.write` call takes its outcome as an oracle argument; `File.write`
reports the number of bytes actually written, which never exceeds the
requested length, so the write-count oracle is capped at the buffer length. -/

structure FdrState where
  fdr_active : Bool
  fdr_end_ms : Nat
  fdr_start_ms : Nat
  last_sample_ms : Nat
  fdr_sample_interval_ms : Nat
  spiffs_mounted : Bool
  fdr_file : Bool
  fdr_write_buffer : List Char
  last_flush_ms : Nat
  fsFile : Option (List Char)
deriving DecidableEq

/-- `MAX_SAMPLES_PER_SEC = 50` from fdr.cpp. -/
def maxSamplesPerSec : Nat := 50

/-- `BUFFER_FLUSH_THRESHOLD = 1024` from fdr.cpp. -/
def bufferFlushThreshold : Nat := 1024

/-- `BUFFER_FLUSH_INTERVAL_MS = 250` from fdr.cpp. -/
def bufferFlushIntervalMs : Nat := 250

/-- The CSV header written by `fdr_file.println("timestamp_s,pressure_hpa")`
(Arduino `println` appends a CRLF). -/
def headerLine : List Char := "timestamp_s,pressure_hpa\r\n".toList

/-- Decimal digits of a natural number. -/
def natChars (n : Nat) : List Char := Nat.toDigits 10 n

/-- Left-pad with zeros to a given width. -/
def padZeros (width : Nat) (s : List Char) : List Char :=
  List.replicate (width - s.length) '0' ++ s

/-- Fixed-point decimal rendering of a rational with `d` fractional digits,
the model of a `%.df` conversion: the value scaled by `10 ^ d` is rounded
half-up, computed directly on the numerator and denominator
(`round(q * 10^d) = (2 * num * 10^d + den) fdiv (2 * den)`). -/
def fmtFixed (q : ℚ) (d : Nat) : List Char :=
  let scaled := Int.fdiv (2 * q.num * (10 ^ d : ℤ) + (q.den : ℤ)) (2 * (q.den : ℤ))
  (if scaled < 0 then ['-'] else []) ++
    natChars (scaled.natAbs / 10 ^ d) ++ '.' :: padZeros d (natChars (scaled.natAbs % 10 ^ d))

/-- One CSV sample line, the model of
`snprintf(line, sizeof(line), "%.3f,%.2f\n", t_sec, pressure)` with
`t_sec = (now - fdr_start_ms) / 1000.0f` (fdr.cpp lines 296-301).  The
`%.3f` rendering of `t_ms / 1000` is exact: whole seconds, a dot, and the
millisecond remainder padded to three digits. -/
def formatLine (t_ms : Nat) (pressure : ℚ) : List Char :=
  natChars (t_ms / 1000) ++ '.' :: padZeros 3 (natChars (t_ms % 1000)) ++
    ',' :: fmtFixed pressure 2 ++ ['\n']

/-- `ensureSpiffs` (fdr.cpp lines 101-117).  Oracles `m1`, `m2`: the results
of `SPIFFS.begin(false)` and of the last-resort `SPIFFS.begin(true)`. -/
def ensureSpiffs (s : FdrState) (m1 m2 : Bool) : FdrState × Bool :=
  if s.spiffs_mounted then (s, true)
  else if m1 then ({ s with spiffs_mounted := true }, true)
  else ({ s with spiffs_mounted := m2 }, m2)

/-- `openFdrFileForWrite` (fdr.cpp lines 124-132): close any open handle,
remove any existing file, open for writing (oracle `oOk`), and on success
write the header line. -/
def openFdrFileForWrite (s : FdrState) (oOk : Bool) : FdrState × Bool :=
  let s1 := { s with fdr_file := false, fsFile := none }
  if oOk then ({ s1 with fdr_file := true, fsFile := some headerLine }, true)
  else (s1, false)

/-- `openFdrFileForAppend` (fdr.cpp lines 139-144): open in append mode only
if no handle is open; append mode creates the file when it does not exist and
writes no header. -/
def openFdrFileForAppend (s : FdrState) (oOk : Bool) : FdrState × Bool :=
  if s.fdr_file then (s, true)
  else if oOk then
    ({ s with fdr_file := true, fsFile := some (s.fsFile.getD []) }, true)
  else (s, false)

/-- The write step of `flushBufferToFile` (fdr.cpp lines 165-174), reached
once the handle is open: `File.write` appends the bytes it accepts (at most
the requested length, hence the cap) to the file; a complete write clears the
buffer, a non-empty short write keeps the unwritten tail, a zero-byte write
leaves the buffer untouched; `last_flush_ms` is refreshed. -/
def flushWrite (s : FdrState) (w now : Nat) : FdrState :=
  let buf := s.fdr_write_buffer
  let wrote := min w buf.length
  let s1 := { s with fsFile := some (s.fsFile.getD [] ++ buf.take wrote) }
  let s2 :=
    if wrote = buf.length then { s1 with fdr_write_buffer := [] }
    else if 0 < wrote ∧ wrote < buf.length then { s1 with fdr_write_buffer := buf.drop wrote }
    else s1
  { s2 with last_flush_ms := now }

/-- `flushBufferToFile` (fdr.cpp lines 152-175): nothing to do on an empty
buffer; if the handle is closed, remount and reopen in append mode first,
giving up (buffer intact) when either fails. -/
def flushBufferToFile (s : FdrState) (m1 m2 oOk : Bool) (w now : Nat) : FdrState :=
  if s.fdr_write_buffer.length = 0 then s
  else if s.fdr_file then flushWrite s w now
  else
    let p := ensureSpiffs s m1 m2
    if p.2 = false then p.1
    else
      let q := openFdrFileForAppend p.1 oOk
      if q.2 = false then q.1
      else flushWrite q.1 w now

/-- `fdr_start` (fdr.cpp lines 207-238): mount lazily, normalise the sampling
rate (0 becomes 1, values above 50 are capped), set
`fdr_sample_interval_ms = 1000 / samples_per_sec`, truncate and re-header the
file, clear the RAM buffer and start the session. -/
def fdr_start (s : FdrState) (duration_s samples_per_sec : Nat) (m1 m2 oOk : Bool)
    (now : Nat) : FdrState × Bool :=
  let p := ensureSpiffs s m1 m2
  if p.2 = false then (p.1, false)
  else
    let sps1 := if samples_per_sec = 0 then 1 else samples_per_sec
    let sps2 := if maxSamplesPerSec < sps1 then maxSamplesPerSec else sps1
    let s1 := { p.1 with fdr_sample_interval_ms := 1000 / sps2 }
    let q := openFdrFileForWrite s1 oOk
    if q.2 = false then (q.1, false)
    else
      ({ q.1 with fdr_write_buffer := [], last_flush_ms := now,
                  fdr_active := true, fdr_start_ms := now,
                  fdr_end_ms := now + duration_s * 1000, last_sample_ms := 0 }, true)

/-- `fdr_stop` (fdr.cpp lines 243-253): no-op when idle; otherwise flush,
close the file and clear the active flag. -/
def fdr_stop (s : FdrState) (m1 m2 oOk : Bool) (w now : Nat) : FdrState :=
  if s.fdr_active = false then s
  else
    let s1 := flushBufferToFile s m1 m2 oOk w now
    { s1 with fdr_file := false, fdr_active := false }

/-- `fdr_reset` (fdr.cpp lines 258-263): no-op when SPIFFS cannot be mounted;
otherwise close any open handle and remove the file.  The active flag and the
RAM buffer are left untouched. -/
def fdr_reset (s : FdrState) (m1 m2 : Bool) : FdrState :=
  let p := ensureSpiffs s m1 m2
  if p.2 = false then p.1
  else { p.1 with fdr_file := false, fsFile := none }

/-- `fdr_process` (fdr.cpp lines 280-308): no-op while idle; stop at session
expiry; when a tick is due (`last_sample_ms == 0` or the interval has
elapsed), stamp `last_sample_ms := now`, skip if the barometer is not ready,
otherwise append one formatted sample line to the RAM buffer and flush when
the buffer reaches the size threshold or the flush interval has elapsed.
Oracles: `ready` and `pressure` stand for `barometer_isReady()` and
`barometer_getPressure()`; `m1 m2 oOk w` feed a possible flush. -/
def fdr_process (s : FdrState) (now : Nat) (ready : Bool) (pressure : ℚ)
    (m1 m2 oOk : Bool) (w : Nat) : FdrState :=
  if s.fdr_active = false then s
  else if s.fdr_end_ms ≤ now then fdr_stop s m1 m2 oOk w now
  else if s.last_sample_ms = 0 ∨ s.fdr_sample_interval_ms ≤ now - s.last_sample_ms then
    if ready = false then { s with last_sample_ms := now }
    else if bufferFlushThreshold ≤
          (s.fdr_write_buffer ++ formatLine (now - s.fdr_start_ms) pressure).length ∨
        bufferFlushIntervalMs ≤ now - s.last_flush_ms then
      flushBufferToFile
        { s with last_sample_ms := now,
                 fdr_write_buffer := s.fdr_write_buffer ++
                   formatLine (now - s.fdr_start_ms) pressure }
        m1 m2 oOk w now
    else
      { s with last_sample_ms := now,
               fdr_write_buffer := s.fdr_write_buffer ++
                 formatLine (now - s.fdr_start_ms) pressure }
  else s

/-- Result of `fdr_streamFile`, mapping its HTTP responses to the spec's error
taxonomy: 500 mount failure = StorageUnavailable, 404 = NoData, 500 cannot
open = IoError, otherwise the streamed file content. -/
inductive StreamRes where
  | mountFailed
  | noData
  | cannotOpen
  | streamed (content : List Char)
deriving DecidableEq

/-- `fdr_streamFile` (fdr.cpp lines 318-345): mount, check existence, flush
the pending buffer when a session is active and the buffer is non-empty, then
open for reading (oracle `rOk`) and stream the whole file. -/
def fdr_streamFile (s : FdrState) (m1 m2 oOk rOk : Bool) (w now : Nat) :
    FdrState × StreamRes :=
  let p := ensureSpiffs s m1 m2
  if p.2 = false then (p.1, .mountFailed)
  else if p.1.fsFile = none then (p.1, .noData)
  else
    let s2 := if p.1.fdr_active = true ∧ 0 < p.1.fdr_write_buffer.length then
                flushBufferToFile p.1 m1 m2 oOk w now
              else p.1
    if rOk = false then (s2, .cannotOpen)
    else (s2, .streamed (s2.fsFile.getD []))

/-- Module state at boot (`fdr_init` mounts nothing and opens nothing). -/
def fdrInitState : FdrState :=
  { fdr_active := false, fdr_end_ms := 0, fdr_start_ms := 0, last_sample_ms := 0,
    fdr_sample_interval_ms := 1000, spiffs_mounted := false, fdr_file := false,
    fdr_write_buffer := [], last_flush_ms := 0, fsFile := none }

/-- One inbound operation on the recorder, with its environment oracles. -/
inductive FdrEv where
  | start (duration_s samples_per_sec : Nat) (m1 m2 oOk : Bool) (now : Nat)
  | process (now : Nat) (ready : Bool) (pressure : ℚ) (m1 m2 oOk : Bool) (w : Nat)
  | stop (m1 m2 oOk : Bool) (w now : Nat)
  | reset (m1 m2 : Bool)
  | stream (m1 m2 oOk rOk : Bool) (w now : Nat)

/-- Apply one operation to the recorder state. -/
def fdrStep (s : FdrState) : FdrEv → FdrState
  | .start d sps m1 m2 oOk now => (fdr_start s d sps m1 m2 oOk now).1
  | .process now r p m1 m2 oOk w => fdr_process s now r p m1 m2 oOk w
  | .stop m1 m2 oOk w now => fdr_stop s m1 m2 oOk w now
  | .reset m1 m2 => fdr_reset s m1 m2
  | .stream m1 m2 oOk rOk w now => (fdr_streamFile s m1 m2 oOk rOk w now).1

/-- Run a sequence of operations. -/
def fdrRun (s : FdrState) : List FdrEv → FdrState
  | [] => s
  | e :: es => fdrRun (fdrStep s e) es

/-- Operations that keep the header invariant provable: while a session is
active, no `fdr_reset` is issued and no `fdr_start` is allowed to fail at
file creation (both of those destroy the headered file under a still-active
session). -/
def okEv (s : FdrState) : FdrEv → Bool
  | .start _ _ _ _ oOk _ => !s.fdr_active || oOk
  | .reset _ _ => !s.fdr_active
  | _ => true

/-- `okEv` holds at every step along a run. -/
def okTrace (s : FdrState) : List FdrEv → Bool
  | [] => true
  | e :: es => okEv s e && okTrace (fdrStep s e) es

/-- Concatenation of formatted sample lines, in write order. -/
def sampleLines (ls : List (Nat × ℚ)) : List Char :=
  (ls.map fun tp => formatLine tp.1 tp.2).flatten

/-- Header invariant: while a session is active the persisted file exists,
begins with exactly the header line, and the file body extended by the RAM
buffer is the concatenation of the formatted sample lines in write order (so
the file body is a byte prefix of that concatenation). -/
def fdrInv (s : FdrState) : Prop :=
  s.fdr_active = true →
    ∃ v ls, s.fsFile = some (headerLine ++ v) ∧
      v ++ s.fdr_write_buffer = sampleLines ls

/-! ## Concrete fixture states used by witnesses and counterexamples -/

/-- Mid-session state with an open file and three buffered bytes. -/
def c1state : FdrState :=
  { fdr_active := true, fdr_end_ms := 10000, fdr_start_ms := 0, last_sample_ms := 40,
    fdr_sample_interval_ms := 20, spiffs_mounted := true, fdr_file := true,
    fdr_write_buffer := ['a', 'b', 'c'], last_flush_ms := 0, fsFile := some ['h'] }

/-- Mid-session state whose last accepted sample was stamped at 100 ms. -/
def c2state : FdrState :=
  { fdr_active := true, fdr_end_ms := 10000, fdr_start_ms := 0, last_sample_ms := 100,
    fdr_sample_interval_ms := 100, spiffs_mounted := true, fdr_file := true,
    fdr_write_buffer := [], last_flush_ms := 0, fsFile := some headerLine }

/-- Mid-session state with two buffered bytes, used for restart and export. -/
def c10state : FdrState :=
  { fdr_active := true, fdr_end_ms := 50000, fdr_start_ms := 0, last_sample_ms := 40,
    fdr_sample_interval_ms := 20, spiffs_mounted := true, fdr_file := true,
    fdr_write_buffer := ['x', 'y'], last_flush_ms := 0, fsFile := some headerLine }

/-- Interleaving exercising a reset while the session is active, followed by
a cycle whose flush recreates the file: start at 50 Hz, buffer one sample at
5 ms, reset at full strength, then sample again at 300 ms (the elapsed flush
interval forces a flush of the two 14-byte lines). -/
def c8trace : List FdrEv :=
  [.start 10 50 true true true 0,
   .process 5 true 1000 true true true 0,
   .reset true true,
   .process 300 true 1000 true true true 28]

/-- A reset-free interleaving: start, one buffered sample, one export. -/
def c8okTrace : List FdrEv :=
  [.start 10 50 true true true 0,
   .process 5 true 1000 true true true 0,
   .stream true true true true 14 30]

end ESP32miniFDR

namespace ESP32miniFDR

/-! ## Helper lemmas -/

theorem ensureSpiffs_eq (s : FdrState) (m1 m2 : Bool) :
    ensureSpiffs s m1 m2 =
      ({ s with spiffs_mounted := (s.spiffs_mounted || m1 || m2) },
       (s.spiffs_mounted || m1 || m2)) := by
  cases s
  simp only [ensureSpiffs]
  split_ifs with h1 h2 <;> simp_all

theorem flushWrite_eq (s : FdrState) (w now : Nat) :
    flushWrite s w now =
      { s with
        fsFile := some (s.fsFile.getD [] ++
          s.fdr_write_buffer.take (min w s.fdr_write_buffer.length)),
        fdr_write_buffer := s.fdr_write_buffer.drop (min w s.fdr_write_buffer.length),
        last_flush_ms := now } := by
  unfold flushWrite
  by_cases h1 : min w s.fdr_write_buffer.length = s.fdr_write_buffer.length
  · simp [h1, List.drop_length]
  · have h2 : min w s.fdr_write_buffer.length < s.fdr_write_buffer.length :=
      lt_of_le_of_ne (min_le_right _ _) h1
    by_cases h3 : 0 < min w s.fdr_write_buffer.length
    · simp [h1, h2, h3]
    · have h0 : min w s.fdr_write_buffer.length = 0 := by omega
      have hne : ¬ (0 = s.fdr_write_buffer.length) := by omega
      simp [h0, hne]

theorem processActive_ema (s : BaroState) (t p : ℚ) :
    (barometer_processActive s t p).pressure_ema
      = updatePressureEMA (initializePressureEMA s.pressure_ema p) p := by
  simp only [barometer_processActive]
  split_ifs <;> rfl

theorem primarySlot_ema (s : BaroState) (b1 : Bool) (c : Option Nat) (bR bS bB : Bool) :
    (primarySlotScan s b1 c bR bS bB).1.pressure_ema = s.pressure_ema := by
  simp only [primarySlotScan, attemptBMEInitOk, attemptBMPInitOk]
  split_ifs <;> rfl

theorem processActive_valid_proj (s : BaroState) (t p : ℚ)
    (hv : validateSensorReadings t p = true) :
    (barometer_processActive s t p).bad_read_count = 0
    ∧ (barometer_processActive s t p).bme_ok = s.bme_ok := by
  simp [barometer_processActive, hv]

theorem processActive_invalid_proj (s : BaroState) (t p : ℚ)
    (hv : validateSensorReadings t p = false) (hlt : s.bad_read_count + 1 < 3) :
    (barometer_processActive s t p).bad_read_count = s.bad_read_count + 1
    ∧ (barometer_processActive s t p).bme_ok = s.bme_ok := by
  have h3 : ¬ (badReadsMax ≤ s.bad_read_count + 1) := by
    simp only [badReadsMax]
    omega
  simp [barometer_processActive, hv, h3]

theorem processActive_invalid_trip (s : BaroState) (t p : ℚ)
    (hv : validateSensorReadings t p = false) (hge : 3 ≤ s.bad_read_count + 1) :
    (barometer_processActive s t p).bad_read_count = 0
    ∧ (barometer_processActive s t p).bme_ok = false := by
  have h3 : badReadsMax ≤ s.bad_read_count + 1 := by
    simp only [badReadsMax]
    omega
  simp [barometer_processActive, hv, h3]

theorem baroEmaRun_spec (rs : List ℚ) : ∀ (s : BaroState) (prev : ℚ),
    s.pressure_ema = some prev →
    baroEmaRun s rs = (specSmoothedFrom prev rs).map some := by
  induction rs with
  | nil =>
      intro s prev _
      simp [baroEmaRun, specSmoothedFrom]
  | cons r rs ih =>
      intro s prev h
      have hstep : (barometer_processActive s 20 r).pressure_ema
          = some ((1/4) * r + (3/4) * prev) := by
        rw [processActive_ema, h]
        simp only [initializePressureEMA, updatePressureEMA, Option.map_some']
        norm_num [pressureEmaAlpha]
      simp [baroEmaRun, specSmoothedFrom, hstep, ih _ _ hstep]

theorem specSmoothedFrom_rec (rs : List ℚ) : ∀ (prev : ℚ) (i : Nat), i + 1 < rs.length →
    (specSmoothedFrom prev rs).getD (i + 1) 0
      = (1/4) * rs.getD (i + 1) 0 + (3/4) * (specSmoothedFrom prev rs).getD i 0 := by
  induction rs with
  | nil =>
      intro prev i h
      simp at h
  | cons r rs ih =>
      intro prev i h
      cases i with
      | zero =>
          cases rs with
          | nil => simp at h
          | cons r2 rs2 => simp [specSmoothedFrom]
      | succ j =>
          have hj : j + 1 < rs.length := by simpa using h
          have := ih ((1/4) * r + (3/4) * prev) j hj
          simpa [specSmoothedFrom] using this

theorem sampleLines_snoc (ls : List (Nat × ℚ)) (t : Nat) (p : ℚ) :
    sampleLines (ls ++ [(t, p)]) = sampleLines ls ++ formatLine t p := by
  simp [sampleLines]

theorem fdrInv_mounted (s : FdrState) (b : Bool) (h : fdrInv s) :
    fdrInv { s with spiffs_mounted := b } := by
  intro ha
  exact h ha

theorem flush_inv (s : FdrState) (m1 m2 oOk : Bool) (w now : Nat) (v : List Char)
    (ls : List (Nat × ℚ)) (hfs : s.fsFile = some (headerLine ++ v))
    (hbuf : v ++ s.fdr_write_buffer = sampleLines ls) :
    ∃ v2, (flushBufferToFile s m1 m2 oOk w now).fsFile = some (headerLine ++ v2)
      ∧ v2 ++ (flushBufferToFile s m1 m2 oOk w now).fdr_write_buffer = sampleLines ls := by
  unfold flushBufferToFile
  by_cases hb : s.fdr_write_buffer.length = 0
  · rw [if_pos hb]
    exact ⟨v, hfs, hbuf⟩
  · rw [if_neg hb]
    by_cases hf : s.fdr_file = true
    · rw [if_pos hf, flushWrite_eq]
      refine ⟨v ++ s.fdr_write_buffer.take (min w s.fdr_write_buffer.length), ?_, ?_⟩
      · simp [hfs, List.append_assoc]
      · simp only [List.append_assoc, List.take_append_drop]
        exact hbuf
    · rw [if_neg hf]
      simp only [ensureSpiffs_eq]
      by_cases hm : (s.spiffs_mounted || m1 || m2) = true
      · rw [hm, if_neg (by simp)]
        cases oOk with
        | false =>
            have hq : openFdrFileForAppend { s with spiffs_mounted := true } false
                = ({ s with spiffs_mounted := true }, false) := by
              simp [openFdrFileForAppend, hf]
            rw [hq, if_pos rfl]
            exact ⟨v, hfs, hbuf⟩
        | true =>
            have hq : openFdrFileForAppend { s with spiffs_mounted := true } true
                = ({ s with spiffs_mounted := true, fdr_file := true, fsFile := some (headerLine ++ v) }, true) := by
              simp [openFdrFileForAppend, hf, hfs]
            rw [hq, if_neg (by simp), flushWrite_eq]
            refine ⟨v ++ s.fdr_write_buffer.take (min w s.fdr_write_buffer.length), ?_, ?_⟩
            · simp [List.append_assoc]
            · simp only [List.append_assoc, List.take_append_drop]
              exact hbuf
      · have hm' : (s.spiffs_mounted || m1 || m2) = false := by
          revert hm
          cases (s.spiffs_mounted || m1 || m2) <;> simp
        rw [hm', if_pos rfl]
        exact ⟨v, hfs, hbuf⟩

theorem fdrStep_inv (s : FdrState) (e : FdrEv) (hInv : fdrInv s) (hok : okEv s e = true) :
    fdrInv (fdrStep s e) := by
  cases e with
  | start d sps m1 m2 oOk now =>
      simp only [fdrStep, fdr_start, ensureSpiffs_eq]
      by_cases hm : (s.spiffs_mounted || m1 || m2) = true
      · rw [hm, if_neg (by simp)]
        cases oOk with
        | false =>
            simp only [okEv, Bool.or_false, Bool.not_eq_eq_eq_not, Bool.not_true] at hok
            have hw : ∀ u : FdrState, openFdrFileForWrite u false
                = ({ u with fdr_file := false, fsFile := none }, false) := by
              intro u
              simp [openFdrFileForWrite]
            rw [hw, if_pos rfl]
            intro ha
            simp [hok] at ha
        | true =>
            have hw : ∀ u : FdrState, openFdrFileForWrite u true
                = ({ u with fdr_file := true, fsFile := some headerLine }, true) := by
              intro u
              simp [openFdrFileForWrite]
            rw [hw, if_neg (by simp)]
            intro _
            exact ⟨[], [], by simp, by simp [sampleLines]⟩
      · have hm' : (s.spiffs_mounted || m1 || m2) = false := by
          revert hm
          cases (s.spiffs_mounted || m1 || m2) <;> simp
        rw [hm', if_pos rfl]
        exact fdrInv_mounted s false hInv
  | process now r p m1 m2 oOk w =>
      simp only [fdrStep, fdr_process]
      by_cases ha : s.fdr_active = false
      · rw [if_pos ha]
        exact hInv
      · rw [if_neg ha]
        have ha' : s.fdr_active = true := by
          revert ha
          cases s.fdr_active <;> simp
        by_cases hend : s.fdr_end_ms ≤ now
        · rw [if_pos hend]
          unfold fdr_stop
          rw [if_neg ha]
          intro hcontra
          simp at hcontra
        · rw [if_neg hend]
          by_cases hdue : (s.last_sample_ms = 0 ∨
              s.fdr_sample_interval_ms ≤ now - s.last_sample_ms)
          · rw [if_pos hdue]
            obtain ⟨v, ls, hfs, hbuf⟩ := hInv ha'
            cases r with
            | false =>
                rw [if_pos rfl]
                intro _
                exact ⟨v, ls, hfs, hbuf⟩
            | true =>
                rw [if_neg (by simp)]
                have hbuf2 : v ++ (s.fdr_write_buffer ++ formatLine (now - s.fdr_start_ms) p)
                    = sampleLines (ls ++ [(now - s.fdr_start_ms, p)]) := by
                  rw [sampleLines_snoc, ← List.append_assoc, hbuf]
                by_cases htr : (bufferFlushThreshold ≤
                    (s.fdr_write_buffer ++ formatLine (now - s.fdr_start_ms) p).length ∨
                    bufferFlushIntervalMs ≤ now - s.last_flush_ms)
                · rw [if_pos htr]
                  intro _
                  obtain ⟨v2, h1, h2⟩ := flush_inv
                    { s with last_sample_ms := now,
                             fdr_write_buffer := s.fdr_write_buffer ++
                               formatLine (now - s.fdr_start_ms) p }
                    m1 m2 oOk w now v (ls ++ [(now - s.fdr_start_ms, p)]) hfs hbuf2
                  exact ⟨v2, ls ++ [(now - s.fdr_start_ms, p)], h1, h2⟩
                · rw [if_neg htr]
                  intro _
                  exact ⟨v, ls ++ [(now - s.fdr_start_ms, p)], hfs, hbuf2⟩
          · rw [if_neg hdue]
            exact hInv
  | stop m1 m2 oOk w now =>
      simp only [fdrStep, fdr_stop]
      by_cases ha : s.fdr_active = false
      · rw [if_pos ha]
        exact hInv
      · rw [if_neg ha]
        intro hcontra
        simp at hcontra
  | reset m1 m2 =>
      simp only [okEv, Bool.not_eq_eq_eq_not, Bool.not_true] at hok
      simp only [fdrStep, fdr_reset, ensureSpiffs_eq]
      by_cases hm : (s.spiffs_mounted || m1 || m2) = true
      · rw [hm, if_neg (by simp)]
        intro ha
        simp [hok] at ha
      · have hm' : (s.spiffs_mounted || m1 || m2) = false := by
          revert hm
          cases (s.spiffs_mounted || m1 || m2) <;> simp
        rw [hm', if_pos rfl]
        intro ha
        simp [hok] at ha
  | stream m1 m2 oOk rOk w now =>
      simp only [fdrStep, fdr_streamFile, ensureSpiffs_eq]
      by_cases hm : (s.spiffs_mounted || m1 || m2) = true
      · rw [hm, if_neg (by simp)]
        by_cases hfn : ({ s with spiffs_mounted := true } : FdrState).fsFile = none
        · rw [if_pos hfn]
          exact fdrInv_mounted s true hInv
        · rw [if_neg hfn]
          by_cases hfl : ({ s with spiffs_mounted := true } : FdrState).fdr_active = true ∧
              0 < ({ s with spiffs_mounted := true } : FdrState).fdr_write_buffer.length
          · rw [if_pos hfl]
            have ha' : s.fdr_active = true := hfl.1
            obtain ⟨v, ls, hfs, hbuf⟩ := hInv ha'
            have hres := flush_inv ({ s with spiffs_mounted := true }) m1 m2 oOk w now v ls
              hfs hbuf
            obtain ⟨v2, h1, h2⟩ := hres
            cases rOk with
            | false =>
                rw [if_pos rfl]
                intro _
                exact ⟨v2, ls, h1, h2⟩
            | true =>
                rw [if_neg (by simp)]
                intro _
                exact ⟨v2, ls, h1, h2⟩
          · rw [if_neg hfl]
            cases rOk with
            | false =>
                rw [if_pos rfl]
                exact fdrInv_mounted s true hInv
            | true =>
                rw [if_neg (by simp)]
                exact fdrInv_mounted s true hInv
      · have hm' : (s.spiffs_mounted || m1 || m2) = false := by
          revert hm
          cases (s.spiffs_mounted || m1 || m2) <;> simp
        rw [hm', if_pos rfl]
        exact fdrInv_mounted s false hInv

/-! ## Claim theorems -/

/-- C1: for every buffer content and every byte count `w` actually written
during a flush (`0 ≤ w ≤ length`), `flushBufferToFile` leaves exactly the
unwritten suffix in the buffer, with no byte dropped and none duplicated
(the file body extended by the remaining buffer is unchanged); a flush that
cannot mount or cannot reopen the file leaves the buffer unchanged, and a
flush of an empty buffer changes nothing. -/
theorem spec_C1_flush_keeps_suffix (s : FdrState) (m1 m2 oOk : Bool) (w now : Nat)
    (hw : w ≤ s.fdr_write_buffer.length) :
    (s.fdr_write_buffer = [] → flushBufferToFile s m1 m2 oOk w now = s)
    ∧ (s.fdr_file = true →
        (flushBufferToFile s m1 m2 oOk w now).fdr_write_buffer = s.fdr_write_buffer.drop w
        ∧ (flushBufferToFile s m1 m2 oOk w now).fsFile.getD [] ++
            (flushBufferToFile s m1 m2 oOk w now).fdr_write_buffer
          = s.fsFile.getD [] ++ s.fdr_write_buffer)
    ∧ (s.fdr_file = false → (s.spiffs_mounted || m1 || m2) = true → oOk = true →
        (flushBufferToFile s m1 m2 oOk w now).fdr_write_buffer = s.fdr_write_buffer.drop w)
    ∧ (s.fdr_file = false → (s.spiffs_mounted || m1 || m2) = false →
        (flushBufferToFile s m1 m2 oOk w now).fdr_write_buffer = s.fdr_write_buffer)
    ∧ (s.fdr_file = false → oOk = false →
        (flushBufferToFile s m1 m2 oOk w now).fdr_write_buffer = s.fdr_write_buffer) := by
  have hmin : min w s.fdr_write_buffer.length = w := min_eq_left hw
  refine ⟨?_, ?_, ?_, ?_, ?_⟩
  · intro h
    simp [flushBufferToFile, h]
  · intro hf
    by_cases hb : s.fdr_write_buffer.length = 0
    · have hbe : s.fdr_write_buffer = [] := List.length_eq_zero.mp hb
      have hw0 : w = 0 := by omega
      simp [flushBufferToFile, hb, hbe, hw0]
    · simp only [flushBufferToFile, hb, if_false, hf, if_true]
      rw [flushWrite_eq]
      simp [hmin, List.take_append_drop]
  · intro hf hm ho
    by_cases hb : s.fdr_write_buffer.length = 0
    · have hbe : s.fdr_write_buffer = [] := List.length_eq_zero.mp hb
      simp [flushBufferToFile, hb, hbe]
    · simp only [flushBufferToFile, hb, if_false, hf]
      rw [ensureSpiffs_eq]
      simp [hm, openFdrFileForAppend, hf, ho, flushWrite_eq, hmin]
  · intro hf hm
    by_cases hb : s.fdr_write_buffer.length = 0
    · have hbe : s.fdr_write_buffer = [] := List.length_eq_zero.mp hb
      simp [flushBufferToFile, hb, hbe]
    · simp only [flushBufferToFile, hb, if_false, hf]
      rw [ensureSpiffs_eq]
      simp [hm]
  · intro hf ho
    by_cases hb : s.fdr_write_buffer.length = 0
    · have hbe : s.fdr_write_buffer = [] := List.length_eq_zero.mp hb
      simp [flushBufferToFile, hb, hbe]
    · simp only [flushBufferToFile, hb, if_false, hf]
      rw [ensureSpiffs_eq]
      by_cases hm : (s.spiffs_mounted || m1 || m2) = true
      · simp [hm, openFdrFileForAppend, hf, ho]
      · simp [Bool.not_eq_true] at hm
        simp [hm]

/-- Witness for C1 at a concrete mid-session state: a short write of 2 of the
3 buffered bytes leaves exactly the last byte buffered. -/
theorem spec_C1_flush_keeps_suffix_witness :
    (2 ≤ c1state.fdr_write_buffer.length)
    ∧ (flushBufferToFile c1state true true true 2 7).fdr_write_buffer = ['c'] := by
  refine ⟨by decide, ?_⟩
  have h := ((spec_C1_flush_keeps_suffix c1state true true true 2 7 (by decide)).2.1 rfl).1
  simpa using h

/-- C2, counterexample: with the last accepted sample stamped at 100 ms and a
100 ms interval, a due tick at 200 ms at which the barometer is not ready is
skipped (no buffer write), but `last_sample_ms` advances to the skipped
tick's time 200, not staying at the previous accepted sample's 100 — the code
stamps `last_sample_ms = now` before checking readiness, so subsequent ticks
measure elapsed time from the skipped tick, contradicting the claim. -/
theorem spec_C2_skip_counterexample :
    c2state.last_sample_ms = 100
    ∧ (fdr_process c2state 200 false 0 true true true 0).fdr_write_buffer
        = c2state.fdr_write_buffer
    ∧ (fdr_process c2state 200 false 0 true true true 0).last_sample_ms = 200 := by
  refine ⟨rfl, ?_, ?_⟩ <;> decide

/-- C2, amended: during an active session, a due tick at which Sensor
Acquisition is not ready is skipped with no buffer write and no error, but it
does advance `last_sample_ms` to the skipped tick's time: the whole effect of
the cycle is `last_sample_ms := now`, so subsequent ticks measure elapsed
time from the most recent due tick, accepted or skipped. -/
theorem spec_C2_skip_amended (s : FdrState) (now : Nat) (p : ℚ) (m1 m2 oOk : Bool)
    (w : Nat) (hact : s.fdr_active = true) (hend : now < s.fdr_end_ms)
    (hdue : s.last_sample_ms = 0 ∨ s.fdr_sample_interval_ms ≤ now - s.last_sample_ms) :
    fdr_process s now false p m1 m2 oOk w = { s with last_sample_ms := now } := by
  have h2 : ¬ s.fdr_end_ms ≤ now := by omega
  simp [fdr_process, hact, h2, hdue]

/-- Witness for the amended C2 at the concrete state of the counterexample. -/
theorem spec_C2_skip_amended_witness :
    c2state.fdr_active = true ∧ (100 : Nat) ≤ 200 - 100
    ∧ fdr_process c2state 200 false 0 true true true 0
        = { c2state with last_sample_ms := 200 } :=
  ⟨rfl, by decide,
   spec_C2_skip_amended c2state 200 0 true true true 0 rfl (by decide)
     (Or.inr (by decide))⟩

/-- C7: `fdr_start` normalises the sampling rate — 0 behaves as 1 (interval
1000 ms), anything above 50 is clamped to 50 (interval `1000 / 50 = 20` ms),
and for every rate in `[1, 50]` the configured interval is `1000 / rate`
by truncating natural division. -/
theorem spec_C7_sample_interval (s : FdrState) (d now : Nat) (m1 m2 : Bool)
    (hm : (s.spiffs_mounted || m1 || m2) = true) :
    ((fdr_start s d 0 m1 m2 true now).1.fdr_sample_interval_ms = 1000)
    ∧ (∀ sps, 50 < sps →
        (fdr_start s d sps m1 m2 true now).1.fdr_sample_interval_ms = 1000 / 50)
    ∧ (∀ sps, 1 ≤ sps → sps ≤ 50 →
        (fdr_start s d sps m1 m2 true now).1.fdr_sample_interval_ms = 1000 / sps) := by
  refine ⟨?_, ?_, ?_⟩
  · simp [fdr_start, ensureSpiffs_eq, hm, openFdrFileForWrite, maxSamplesPerSec]
  · intro sps h
    have h0 : sps ≠ 0 := by omega
    simp [fdr_start, ensureSpiffs_eq, hm, openFdrFileForWrite, maxSamplesPerSec, h0, h]
  · intro sps h1 h2
    have h0 : sps ≠ 0 := by omega
    have h50 : ¬ (50 < sps) := by omega
    simp [fdr_start, ensureSpiffs_eq, hm, openFdrFileForWrite, maxSamplesPerSec, h0, h50]

/-- Witness for C7: starting at 4 samples per second configures a 250 ms
interval; a rate of 0 gives 1000 ms; a rate of 200 is clamped to 20 ms. -/
theorem spec_C7_sample_interval_witness :
    (fdr_start c10state 2 4 true true true 0).1.fdr_sample_interval_ms = 250
    ∧ (fdr_start c10state 2 0 true true true 0).1.fdr_sample_interval_ms = 1000
    ∧ (fdr_start c10state 2 200 true true true 0).1.fdr_sample_interval_ms = 20 := by
  have h := spec_C7_sample_interval c10state 2 0 true true rfl
  refine ⟨?_, h.1, ?_⟩
  · have := h.2.2 4 (by decide) (by decide)
    simpa using this
  · have := h.2.1 200 (by decide)
    simpa using this

/-- C3: for every sequence of raw pressure readings processed while a sensor
is active, the published smoothed-pressure trace coincides with the spec's
recurrence: `smoothed[0] = raw[0]` and
`smoothed[i] = 0.25 * raw[i] + 0.75 * smoothed[i-1]` for `i > 0`, the update
being applied on every processed cycle. -/
theorem spec_C3_ema_recurrence (raws : List ℚ) :
    (emaTrace raws = (specSmoothed raws).map some)
    ∧ (∀ r rs, raws = r :: rs → (specSmoothed raws).getD 0 0 = r)
    ∧ (∀ i, i + 1 < raws.length →
        (specSmoothed raws).getD (i + 1) 0
          = (1/4) * raws.getD (i + 1) 0 + (3/4) * (specSmoothed raws).getD i 0) := by
  refine ⟨?_, ?_, ?_⟩
  · cases raws with
    | nil => simp [emaTrace, baroEmaRun, specSmoothed]
    | cons r rs =>
        have h0 : baroActiveInit.pressure_ema = none := rfl
        have hstep : (barometer_processActive baroActiveInit 20 r).pressure_ema = some r := by
          rw [processActive_ema, h0]
          simp only [initializePressureEMA, updatePressureEMA, Option.map_some']
          have : pressureEmaAlpha * r + (1 - pressureEmaAlpha) * r = r := by ring
          rw [this]
        simp [emaTrace, baroEmaRun, specSmoothed, hstep,
          baroEmaRun_spec rs _ r hstep]
  · intro r rs h
    subst h
    simp [specSmoothed]
  · intro i h
    cases raws with
    | nil => simp at h
    | cons r rs =>
        cases i with
        | zero =>
            cases rs with
            | nil => simp at h
            | cons r2 rs2 => simp [specSmoothed, specSmoothedFrom]
        | succ j =>
            have hj : j + 1 < rs.length := by simpa using h
            have := specSmoothedFrom_rec rs r j hj
            simpa [specSmoothed] using this

/-- Witness for C3: processing the raw readings 4 then 8 from a fresh filter
yields the smoothed trace 4 then 5, and the recurrence instance at index 1. -/
theorem spec_C3_ema_recurrence_witness :
    emaTrace [(4 : ℚ), 8] = [some 4, some 5]
    ∧ (specSmoothed [(4 : ℚ), 8]).getD 1 0
        = (1/4) * ([(4 : ℚ), 8].getD 1 0) + (3/4) * ((specSmoothed [(4 : ℚ), 8]).getD 0 0) := by
  have h := spec_C3_ema_recurrence [(4 : ℚ), 8]
  refine ⟨?_, h.2.2 0 (by norm_num)⟩
  rw [h.1]
  norm_num [specSmoothed, specSmoothedFrom]

/-- C4, counterexample: the claim says an out-of-range first reading does not
initialize the smoothed pressure, but on a fresh sensor a first reading with
pressure 2000 hPa (out of range, with in-range temperature 20) initializes
the filter to that raw value: `pressure_ema` becomes `some 2000`, not
remaining undefined — the code initializes the EMA before validation. -/
theorem spec_C4_counterexample :
    validateSensorReadings 20 2000 = false
    ∧ baroActiveInit.pressure_ema = none
    ∧ (barometer_processActive baroActiveInit 20 2000).pressure_ema = some 2000 := by
  refine ⟨by decide, rfl, ?_⟩
  rw [processActive_ema]
  simp only [baroActiveInit, initializePressureEMA, updatePressureEMA, Option.map_some']
  norm_num [pressureEmaAlpha]

/-- C4, amended: the smoothed pressure is undefined until the first processed
reading — in range or not — initializes the filter to that raw value; once
initialized it is only updated by the EMA step and never reverts to
undefined under any operation: the active read path keeps it defined, and a
bus scan (including the forced re-scan after consecutive bad readings)
leaves it untouched. -/
theorem spec_C4_ema_lifecycle_amended (s : BaroState) (t p e : ℚ) (env : ScanEnv) :
    (s.pressure_ema = none → (barometer_processActive s t p).pressure_ema = some p)
    ∧ (s.pressure_ema = some e →
        (barometer_processActive s t p).pressure_ema
          = some (pressureEmaAlpha * p + (1 - pressureEmaAlpha) * e))
    ∧ (s.pressure_ema ≠ none → (barometer_process s env t p).pressure_ema ≠ none)
    ∧ ((primarySlotScan s env.b1 env.chipRead env.bRetry env.bSec env.bBmp).1.pressure_ema
        = s.pressure_ema) := by
  refine ⟨?_, ?_, ?_, primarySlot_ema s env.b1 env.chipRead env.bRetry env.bSec env.bBmp⟩
  · intro h
    rw [processActive_ema, h]
    simp only [initializePressureEMA, updatePressureEMA, Option.map_some']
    have : pressureEmaAlpha * p + (1 - pressureEmaAlpha) * p = p := by ring
    rw [this]
  · intro h
    rw [processActive_ema, h]
    simp [initializePressureEMA, updatePressureEMA]
  · intro h
    unfold barometer_process
    split_ifs with hok
    · unfold scanAndTryInit
      split_ifs with hp
      · rw [primarySlot_ema]
        exact h
      · exact h
    · rw [processActive_ema]
      cases hm : s.pressure_ema with
      | none => exact absurd hm h
      | some v => simp [initializePressureEMA, updatePressureEMA]

/-- Witness for the amended C4 on a fresh sensor: the first (out-of-range)
reading initializes the filter to the raw value, and a subsequent reading
only updates it. -/
theorem spec_C4_ema_lifecycle_amended_witness :
    baroActiveInit.pressure_ema = none
    ∧ (barometer_processActive baroActiveInit 20 2000).pressure_ema = some 2000 := by
  have h := (spec_C4_ema_lifecycle_amended baroActiveInit 20 2000 0
    ⟨false, false, none, false, false, false⟩).1 rfl
  exact ⟨rfl, h⟩

/-- C5: with an active sensor, an in-range reading (temperature in [-40, 85],
pressure in [300, 1100]) resets the consecutive-bad-read counter to 0 and
keeps the sensor active; starting from a clean counter, the third consecutive
out-of-range reading — and not the second — forces the state back to
unconfigured (`bme_ok = false`, full re-scan) with the counter reset to 0;
and two consecutive out-of-range readings followed by one in-range reading
never force a re-scan. -/
theorem spec_C5_bad_read_policy (s : BaroState) (hok : s.bme_ok = true) :
    (∀ t p : ℚ, -40 ≤ t → t ≤ 85 → 300 ≤ p → p ≤ 1100 →
      (barometer_processActive s t p).bad_read_count = 0
      ∧ (barometer_processActive s t p).bme_ok = true)
    ∧ (∀ t1 p1 t2 p2 t3 p3 : ℚ, s.bad_read_count = 0 →
        validateSensorReadings t1 p1 = false →
        validateSensorReadings t2 p2 = false →
        validateSensorReadings t3 p3 = false →
        (barometer_processActive (barometer_processActive s t1 p1) t2 p2).bme_ok = true
        ∧ (barometer_processActive (barometer_processActive
            (barometer_processActive s t1 p1) t2 p2) t3 p3).bme_ok = false
        ∧ (barometer_processActive (barometer_processActive
            (barometer_processActive s t1 p1) t2 p2) t3 p3).bad_read_count = 0)
    ∧ (∀ t1 p1 t2 p2 t3 p3 : ℚ, s.bad_read_count = 0 →
        validateSensorReadings t1 p1 = false →
        validateSensorReadings t2 p2 = false →
        -40 ≤ t3 → t3 ≤ 85 → 300 ≤ p3 → p3 ≤ 1100 →
        (barometer_processActive (barometer_processActive
            (barometer_processActive s t1 p1) t2 p2) t3 p3).bme_ok = true
        ∧ (barometer_processActive (barometer_processActive
            (barometer_processActive s t1 p1) t2 p2) t3 p3).bad_read_count = 0) := by
  refine ⟨?_, ?_, ?_⟩
  · intro t p h1 h2 h3 h4
    have hv : validateSensorReadings t p = true := by
      simp only [validateSensorReadings, decide_eq_true_eq]
      exact ⟨⟨h1, h2⟩, h3, h4⟩
    have := processActive_valid_proj s t p hv
    exact ⟨this.1, by rw [this.2, hok]⟩
  · intro t1 p1 t2 p2 t3 p3 hc hv1 hv2 hv3
    have s1 := processActive_invalid_proj s t1 p1 hv1 (by omega)
    have s2 := processActive_invalid_proj (barometer_processActive s t1 p1) t2 p2 hv2
      (by omega)
    have s3 := processActive_invalid_trip (barometer_processActive
      (barometer_processActive s t1 p1) t2 p2) t3 p3 hv3 (by omega)
    refine ⟨by rw [s2.2, s1.2, hok], s3.2, s3.1⟩
  · intro t1 p1 t2 p2 t3 p3 hc hv1 hv2 h1 h2 h3 h4
    have hv3 : validateSensorReadings t3 p3 = true := by
      simp only [validateSensorReadings, decide_eq_true_eq]
      exact ⟨⟨h1, h2⟩, h3, h4⟩
    have s1 := processActive_invalid_proj s t1 p1 hv1 (by omega)
    have s2 := processActive_invalid_proj (barometer_processActive s t1 p1) t2 p2 hv2
      (by omega)
    have s3 := processActive_valid_proj (barometer_processActive
      (barometer_processActive s t1 p1) t2 p2) t3 p3 hv3
    exact ⟨by rw [s3.2, s2.2, s1.2, hok], s3.1⟩

/-- Witness for C5 on a fresh active sensor: in-range reading (20 °C,
1000 hPa) keeps the counter at 0; three consecutive 2000 hPa readings force
re-scan; two bad readings followed by a good one do not. -/
theorem spec_C5_bad_read_policy_witness :
    ((barometer_processActive baroActiveInit 20 1000).bad_read_count = 0
      ∧ (barometer_processActive baroActiveInit 20 1000).bme_ok = true)
    ∧ ((barometer_processActive (barometer_processActive (barometer_processActive
          baroActiveInit 20 2000) 20 2000) 20 2000).bme_ok = false)
    ∧ ((barometer_processActive (barometer_processActive (barometer_processActive
          baroActiveInit 20 2000) 20 2000) 20 1000).bme_ok = true) := by
  have h := spec_C5_bad_read_policy baroActiveInit rfl
  refine ⟨h.1 20 1000 (by norm_num) (by norm_num) (by norm_num) (by norm_num), ?_, ?_⟩
  · exact (h.2.1 20 2000 20 2000 20 2000 rfl (by decide) (by decide) (by decide)).2.1
  · exact (h.2.2 20 2000 20 2000 20 1000 rfl (by decide) (by decide)
      (by norm_num) (by norm_num) (by norm_num) (by norm_num)).1

/-- C6: when the bus scan reaches the primary sensor address while
acquisition is not active, the probe attempts actually executed are exactly
the spec's sequence — primary driver at primary address, identity-register
read, primary driver at primary address again, primary driver at secondary
address, and the fallback driver at the primary address only when the
identity register matched the expected ID — stopping at the first success;
and in the scenario where the three primary-driver attempts fail, the
identity matches, and the fallback attempt succeeds, the final state is
active with the fallback driver (`bme_ok` and `bmp_used` both set). -/
theorem spec_C6_scan_order (s : BaroState) (b1 bRetry bSec bBmp : Bool)
    (chipRead : Option Nat) :
    ((primarySlotScan s b1 chipRead bRetry bSec bBmp).2
      = attemptsUntilSuccess
          (probeCandidates b1 bRetry bSec bBmp (decide (chipRead.getD 0 = bme280ChipId))))
    ∧ ((primarySlotScan s false (some bme280ChipId) false false true).1.bme_ok = true
      ∧ (primarySlotScan s false (some bme280ChipId) false false true).1.bmp_used = true) := by
  constructor
  · by_cases hc : chipRead.getD 0 = bme280ChipId
    · cases b1 <;> cases bRetry <;> cases bSec <;> cases bBmp <;>
        simp [primarySlotScan, probeCandidates, attemptsUntilSuccess, hc]
    · cases b1 <;> cases bRetry <;> cases bSec <;> cases bBmp <;>
        simp [primarySlotScan, probeCandidates, attemptsUntilSuccess, hc]
  · simp [primarySlotScan, attemptBMPInitOk, bme280ChipId]

/-- C8, counterexample: the claim includes a reset issued while a session is
active followed by further flushes, but on the interleaving start → sample →
reset → sample-with-flush the recorder is still active and the persisted file
exists yet does not begin with the header line — the reset removed the
headered file and the next flush recreated it in append mode, which writes no
header. -/
theorem spec_C8_header_counterexample :
    (fdrRun fdrInitState c8trace).fdr_active = true
    ∧ (fdrRun fdrInitState c8trace).fsFile ≠ none
    ∧ ((fdrRun fdrInitState c8trace).fsFile.getD []).take headerLine.length
        ≠ headerLine := by
  refine ⟨?_, ?_, ?_⟩ <;> decide

/-- C8, amended: from session start until the recorder returns to idle, the
persisted file begins with exactly one header line followed (byte-wise) by a
prefix of the sample lines in write order, and the file body extended by the
RAM buffer is exactly that line sequence — for every interleaving of start,
cycle, stop and export in which, while a session is active, no reset is
issued and no start fails at file creation; a reset (or a start failing at
file creation) during an active session deletes the headered file, and
subsequent flushes recreate it in append mode without a header. -/
theorem spec_C8_header_invariant_amended (evs : List FdrEv) (s : FdrState)
    (hInv : fdrInv s) (hok : okTrace s evs = true) : fdrInv (fdrRun s evs) := by
  induction evs generalizing s with
  | nil => exact hInv
  | cons e es ih =>
      simp only [okTrace, Bool.and_eq_true] at hok
      exact ih (fdrStep s e) (fdrStep_inv s e hInv hok.1) hok.2

/-- Witness for the amended C8: a concrete reset-free run (start, one sampled
cycle, one export) satisfies the trace condition and ends in a state obeying
the header invariant. -/
theorem spec_C8_header_invariant_amended_witness :
    okTrace fdrInitState c8okTrace = true ∧ fdrInv (fdrRun fdrInitState c8okTrace) :=
  ⟨by decide,
   spec_C8_header_invariant_amended c8okTrace fdrInitState
     (fun h => absurd h (by decide)) (by decide)⟩

/-- C9: `fdr_streamFile` fails with the storage-unavailable response when the
store cannot be mounted, with the no-data response when no persisted file
exists, and with the I/O-error response when the file cannot be opened for
reading; otherwise it streams the full persisted file, and when a session is
active at the time of the call the pending write buffer is flushed first
(here with a full write), so the exported content is the persisted bytes
followed by the just-buffered bytes. -/
theorem spec_C9_export_behavior (s : FdrState) (m1 m2 oOk rOk : Bool) (w now : Nat)
    (c : List Char) :
    (s.spiffs_mounted = false → m1 = false → m2 = false →
      (fdr_streamFile s m1 m2 oOk rOk w now).2 = .mountFailed)
    ∧ ((s.spiffs_mounted || m1 || m2) = true → s.fsFile = none →
      (fdr_streamFile s m1 m2 oOk rOk w now).2 = .noData)
    ∧ ((s.spiffs_mounted || m1 || m2) = true → s.fsFile = some c → rOk = false →
      (fdr_streamFile s m1 m2 oOk rOk w now).2 = .cannotOpen)
    ∧ ((s.spiffs_mounted || m1 || m2) = true → s.fsFile = some c → rOk = true →
        s.fdr_active = true → s.fdr_file = true → w = s.fdr_write_buffer.length →
      (fdr_streamFile s m1 m2 oOk rOk w now).2 = .streamed (c ++ s.fdr_write_buffer))
    ∧ ((s.spiffs_mounted || m1 || m2) = true → s.fsFile = some c → rOk = true →
        s.fdr_active = false →
      (fdr_streamFile s m1 m2 oOk rOk w now).2 = .streamed c) := by
  refine ⟨?_, ?_, ?_, ?_, ?_⟩
  · intro h1 h2 h3
    simp [fdr_streamFile, ensureSpiffs_eq, h1, h2, h3]
  · intro hm hn
    simp [fdr_streamFile, ensureSpiffs_eq, hm, hn]
  · intro hm hc hr
    simp [fdr_streamFile, ensureSpiffs_eq, hm, hc, hr]
  · intro hm hc hr ha hf hw
    by_cases hb : s.fdr_write_buffer = []
    · simp [fdr_streamFile, ensureSpiffs_eq, hm, hc, hr, hb]
    · have hpos : 0 < s.fdr_write_buffer.length := List.length_pos.mpr hb
      have hlen : ¬ (s.fdr_write_buffer.length = 0) := by omega
      simp [fdr_streamFile, ensureSpiffs_eq, hm, hc, hr, ha, hpos, hlen,
        flushBufferToFile, hf, flushWrite_eq, hw]
  · intro hm hc hr ha
    simp [fdr_streamFile, ensureSpiffs_eq, hm, hc, hr, ha]

/-- Witness for C9 on a concrete active session with two unflushed bytes:
the export streams the persisted header plus the just-buffered bytes; on an
unmountable fresh state it reports storage unavailable. -/
theorem spec_C9_export_behavior_witness :
    (fdr_streamFile c10state true true true true 2 99).2
      = .streamed (headerLine ++ ['x', 'y'])
    ∧ (fdr_streamFile fdrInitState false false true true 0 0).2 = .mountFailed := by
  constructor
  · exact (spec_C9_export_behavior c10state true true true true 2 99 headerLine).2.2.2.1
      rfl rfl rfl rfl rfl rfl
  · exact (spec_C9_export_behavior fdrInitState false false true true 0 0 []).1 rfl rfl rfl

/-- C10: invoking `fdr_start` while a session is already active does not stop
or flush the prior session — whenever the store mounts and file creation
succeeds the call returns true (independently of the prior active flag), the
prior session's unflushed buffered bytes are discarded (the buffer is
cleared without being written), the persisted file is truncated to exactly
the fresh header, and the recorder is active under the new session's
timestamps. -/
theorem spec_C10_restart_discards (s : FdrState) (d sps now : Nat) (m1 m2 : Bool)
    (hm : (s.spiffs_mounted || m1 || m2) = true) :
    (fdr_start s d sps m1 m2 true now).2 = true
    ∧ (fdr_start s d sps m1 m2 true now).1.fdr_active = true
    ∧ (fdr_start s d sps m1 m2 true now).1.fdr_write_buffer = []
    ∧ (fdr_start s d sps m1 m2 true now).1.fsFile = some headerLine
    ∧ (fdr_start s d sps m1 m2 true now).1.fdr_start_ms = now
    ∧ (fdr_start s d sps m1 m2 true now).1.fdr_end_ms = now + d * 1000 := by
  simp [fdr_start, ensureSpiffs_eq, hm, openFdrFileForWrite]

/-- Witness for C10 at a concrete active session with two unflushed bytes:
the restart succeeds, stays active, and the file holds only the new header. -/
theorem spec_C10_restart_discards_witness :
    c10state.fdr_active = true ∧ c10state.fdr_write_buffer = ['x', 'y']
    ∧ (fdr_start c10state 5 10 true true true 60).2 = true
    ∧ (fdr_start c10state 5 10 true true true 60).1.fdr_write_buffer = []
    ∧ (fdr_start c10state 5 10 true true true 60).1.fsFile = some headerLine := by
  have h := spec_C10_restart_discards c10state 5 10 60 true true rfl
  exact ⟨rfl, rfl, h.1, h.2.2.1, h.2.2.2.1⟩

end ESP32miniFDR
